import Mathlib

/-!
Shallow embedding of the ParaGraph evaluation engine (`src/lib/scoring.ts`,
"Evaluation Agent v3.0": two-stage Quality × SpecMatch scoring) together with
the data model from `src/lib/types.ts`, and proofs settling the claims about
that engine.

Modelling conventions:
- JavaScript numbers are modelled as real numbers `ℝ`; topological counts
  (face/edge/vertex counts and face-type histograms) as `ℕ`.
- A JS `Record` is modelled as an insertion-ordered association list
  `List (String × α)`; the JS property write `o[k] = v` (update in place if
  present, append otherwise) is `jsSet`, property read is `jsGet`.
- `x || d` on an optional number (absent and `0` both fall back) is `jsOrR`;
  `x ?? d` is `Option.getD`.  For a number field that is always present,
  `x || 0` is the identity and is translated as the plain field.
- The regular-expression scans of the prompt are implemented as explicit
  greedy matchers over the lower-cased character list.  For every pattern in
  the source the atom following a greedy repetition cannot begin with a
  character that repetition accepts, so greedy matching without backtracking
  coincides with the JS regex semantics (leftmost match, ordered alternation).
- Human-readable issue / breakdown strings are represented by the inductive
  type `Issue`: one constructor per distinct message in the source, carrying
  the interpolated numeric payloads (string rendering of real numbers is not
  part of the scored behaviour).
-/

namespace Paragraph

/-! ### JS record (association list) helpers -/

/-- JS property write `o[k] = v`: update in place when the key exists, else append. -/
def jsSet {α : Type _} (m : List (String × α)) (k : String) (v : α) : List (String × α) :=
  if m.any (fun p => p.1 = k) then m.map (fun p => if p.1 = k then (k, v) else p)
  else m ++ [(k, v)]

/-- JS property read `o[k]`, `none` when the key is absent. -/
def jsGet {α : Type _} (m : List (String × α)) (k : String) : Option α :=
  (m.find? (fun p => p.1 = k)).map (fun p => p.2)

/-- JS `x || d` for an optional number: absent and `0` both fall back to `d`. -/
noncomputable def jsOrR (x : Option ℝ) (d : ℝ) : ℝ :=
  match x with
  | none => d
  | some v => if v = 0 then d else v

/-! ### Character-level matching layer

The source lower-cases the prompt (`prompt.toLowerCase()`) and matches
case-insensitive regexes; prompts are ASCII, so ASCII lower-casing is used. -/

/-- ASCII lower-casing of one character. -/
def lc (c : Char) : Char :=
  if 'A' ≤ c ∧ c ≤ 'Z' then Char.ofNat (c.toNat + 32) else c

/-- The prompt as a lower-cased character list. -/
def lowerL (s : String) : List Char := s.data.map lc

/-- Regex `\d`. -/
def isDigitC (c : Char) : Bool := '0' ≤ c ∧ c ≤ '9'

/-- Regex `\s` (ASCII subset). -/
def isWsC (c : Char) : Bool := c = ' ' ∨ c = '\t' ∨ c = '\n' ∨ c = '\r'

/-- Regex word character `\w`, used for `\b` boundaries. -/
def isWordC (c : Char) : Bool :=
  isDigitC c ∨ ('a' ≤ c ∧ c ≤ 'z') ∨ ('A' ≤ c ∧ c ≤ 'Z') ∨ c = '_'

/-- Whether a character list starts with the given needle. -/
def startsWithL : List Char → List Char → Bool
  | [], _ => true
  | _ :: _, [] => false
  | n :: ns, c :: cs => n = c && startsWithL ns cs

/-- Whether the needle occurs contiguously in the haystack. -/
def occursIn (needle : List Char) : List Char → Bool
  | [] => startsWithL needle []
  | c :: cs => startsWithL needle (c :: cs) || occursIn needle cs

/-- JS `haystack.includes(needle)`. -/
def jsIncludes (hay : List Char) (needle : String) : Bool :=
  occursIn needle.data hay

/-- Whether any of the alternatives of an (unanchored) regex alternation of
literals occurs in the text, e.g. `/gear|disc|plate/.test(lower)`. -/
def containsAny (hay : List Char) (ws : List String) : Bool :=
  ws.any (fun w => jsIncludes hay w)

/-- Greedy `\s*`. -/
def eatWs : List Char → List Char
  | [] => []
  | c :: r => if isWsC c then eatWs r else c :: r

/-- Greedy `\s+`: at least one whitespace character. -/
def eatWs1 (s : List Char) : Option (List Char) :=
  match s with
  | [] => none
  | c :: r => if isWsC c then some (eatWs r) else none

/-- Greedy `\d*`: the maximal digit run and the rest. -/
def eatDigits : List Char → List Char × List Char
  | [] => ([], [])
  | c :: r =>
    if isDigitC c then
      let p := eatDigits r
      (c :: p.1, p.2)
    else ([], c :: r)

/-- Match a literal (already lower-cased) at the head of the text. -/
def litM : List Char → List Char → Option (List Char)
  | [], s => some s
  | _ :: _, [] => none
  | p :: ps, c :: cs => if p = c then litM ps cs else none

/-- Ordered regex alternation of literals. -/
def altsM : List (List Char) → List Char → Option (List Char)
  | [], _ => none
  | w :: ws, s =>
    match litM w s with
    | some r => some r
    | none => altsM ws s

/-- Optional ordered alternation, e.g. `(?:of|:)?`: consume the first matching
alternative, or nothing. -/
def optAlts (ws : List (List Char)) (s : List Char) : List Char :=
  match altsM ws s with
  | some r => r
  | none => s

/-- Optional literal, e.g. `s?`. -/
def optLit (w : List Char) (s : List Char) : List Char :=
  match litM w s with
  | some r => r
  | none => s

/-- Optional group literal-plus-`\s+`, e.g. `(?:vertical\s+)?`. -/
def optSeqWs (w : List Char) (s : List Char) : List Char :=
  match litM w s with
  | some r =>
    match eatWs1 r with
    | some r2 => r2
    | none => s
  | none => s

/-- `parseInt` on a digit run. -/
def digitsToNat (ds : List Char) : ℕ :=
  ds.foldl (fun a c => a * 10 + (c.toNat - 48)) 0

/-- `parseFloat` on a capture of shape `\d+\.?\d*`. -/
def decToQ (ds fs : List Char) : ℚ :=
  (digitsToNat ds : ℚ) + (digitsToNat fs : ℚ) / (10 : ℚ) ^ fs.length

/-- Capture `(\d+\.?\d*)` and return its `parseFloat` value with the rest. -/
def numCapQ (s : List Char) : Option (ℚ × List Char) :=
  match eatDigits s with
  | ([], _) => none
  | (ds, rest) =>
    match rest with
    | '.' :: r2 =>
      let p := eatDigits r2
      some (decToQ ds p.1, p.2)
    | _ => some (decToQ ds [], rest)

/-- Capture `(\d+)` and return its `parseInt` value with the rest. -/
def numCapN (s : List Char) : Option (ℕ × List Char) :=
  match eatDigits s with
  | ([], _) => none
  | (ds, rest) => some (digitsToNat ds, rest)

/-- Scan for the leftmost match of `f`, threading the previous character for
word-boundary (`\b`) checks. -/
def firstMatchGo {α : Type _} (f : Option Char → List Char → Option α) :
    Option Char → List Char → Option α
  | prev, [] => f prev []
  | prev, c :: rest =>
    match f prev (c :: rest) with
    | some v => some v
    | none => firstMatchGo f (some c) rest

/-- `text.match(re)` restricted to whether/what the first match captures. -/
def firstMatch {α : Type _} (f : Option Char → List Char → Option α)
    (s : List Char) : Option α :=
  firstMatchGo f none s

/-- `\b` on the left of the current position. -/
def boundaryBefore (prev : Option Char) : Bool :=
  match prev with
  | none => true
  | some c => !isWordC c

/-- `\b` on the right: at the end of text or before a non-word character. -/
def boundaryAfter (s : List Char) : Bool :=
  match s with
  | [] => true
  | c :: _ => !isWordC c

/-! ### The dimension patterns of `extractTargetSpec`

`dimPatterns`: ten unit-anchored regexes, each with one numeric capture.
Form A is `(\d+\.?\d*)\s*mm\s*(?:w1|w2|...)`; form B is
`word\s*(?:of|:)?\s*(\d+\.?\d*)\s*mm`. -/

/-- Matcher for `(\d+\.?\d*)\s*mm\s*(?:...alternatives...)` at one position. -/
def numMmWordAt (words : List String) (_prev : Option Char) (s : List Char) :
    Option ℚ := do
  let (q, r1) ← numCapQ s
  let r2 := eatWs r1
  let r3 ← litM ("mm".data) r2
  let r4 := eatWs r3
  let _ ← altsM (words.map (fun w => w.data)) r4
  pure q

/-- Matcher for `word\s*(?:of|:)?\s*(\d+\.?\d*)\s*mm` at one position. -/
def wordNumMmAt (word : String) (_prev : Option Char) (s : List Char) :
    Option ℚ := do
  let r1 ← litM word.data s
  let r2 := eatWs r1
  let r3 := optAlts [("of".data), (":".data)] r2
  let r4 := eatWs r3
  let (q, r5) ← numCapQ r4
  let r6 := eatWs r5
  let _ ← litM ("mm".data) r6
  pure q

/-- The ordered `dimPatterns` table: pattern matcher and semantic key. -/
def dimPatterns : List ((Option Char → List Char → Option ℚ) × String) :=
  [ (numMmWordAt ["height", "tall", "high"], "height"),
    (wordNumMmAt "height", "height"),
    (numMmWordAt ["width", "wide"], "width"),
    (wordNumMmAt "width", "width"),
    (numMmWordAt ["diameter", "dia"], "diameter"),
    (wordNumMmAt "diameter", "diameter"),
    (numMmWordAt ["thick", "thickness"], "thickness"),
    (wordNumMmAt "thickness", "thickness"),
    (numMmWordAt ["depth", "deep"], "depth"),
    (numMmWordAt ["bore", "hole"], "bore_diameter") ]

/-- Text-derived target dimensions: for each pattern in order, a match sets the
entry for its key (`targetDims[p.key] = parseFloat(m[1])`). -/
def textDims (lw : List Char) : List (String × ℚ) :=
  dimPatterns.foldl
    (fun acc pk =>
      match firstMatch pk.1 lw with
      | some q => jsSet acc pk.2 q
      | none => acc)
    []

/-! ### The feature patterns of `extractTargetSpec` -/

/-- `(\d+)\s*(?:group\s+)?stem s?`: the `ribs`/`holes` counted patterns
(`group` is `vertical` resp. `mounting`), also `(\d+)\s*teeth` with no
optional group and no `s?`. -/
def numFeatAt (group : Option String) (stem : String) (sOpt : Bool)
    (_prev : Option Char) (s : List Char) : Option ℕ := do
  let (n, r1) ← numCapN s
  let r2 := eatWs r1
  let r3 := match group with
    | some g => optSeqWs g.data r2
    | none => r2
  let r4 ← litM stem.data r3
  let _ := if sOpt then optLit ("s".data) r4 else r4
  pure n

/-- `stem s?\s*(?:count)?\s*(\d+)`: the reversed counted patterns
(`ribs?\s*(?:count)?\s*(\d+)`, `teeth\s*(\d+)`, `holes?\s*(\d+)`). -/
def featNumAt (stem : String) (sOpt : Bool) (countWord : Bool)
    (_prev : Option Char) (s : List Char) : Option ℕ := do
  let r1 ← litM stem.data s
  let r2 := if sOpt then optLit ("s".data) r1 else r1
  let r3 := eatWs r2
  let r4 := if countWord then optAlts [("count".data)] r3 else r3
  let r5 := eatWs r4
  let (n, _) ← numCapN r5
  pure n

/-- `\bstem` with an optional trailing `s?\b` or plain `\b` check. -/
def bWordAt (stem : String) (sOpt : Bool) (bAfter : Bool)
    (prev : Option Char) (s : List Char) : Option Unit := do
  if boundaryBefore prev then
    let r1 ← litM stem.data s
    let r2 := if sOpt then optLit ("s".data) r1 else r1
    if bAfter then
      if boundaryAfter r2 then pure () else none
    else pure ()
  else none

/-- One row of the `featurePatterns` table: the feature name and the outcome of
`prompt.match(...)` (`some (some n)` for a counted match, `some none` for an
uncounted one). -/
def featRow (acc : List String × List (String × ℕ)) (name : String)
    (r : Option (Option ℕ)) : List String × List (String × ℕ) :=
  match r with
  | none => acc
  | some cnt =>
    ( if acc.1.contains name then acc.1 else acc.1 ++ [name],
      match cnt with
      | some n => jsSet acc.2 name n
      | none => acc.2 )

/-- The ordered `featurePatterns` scan: feature names (deduplicated, in match
order) and captured counts. -/
def textFeatures (lw : List Char) : List String × List (String × ℕ) :=
  let a0 : List String × List (String × ℕ) := ([], [])
  let a1 := featRow a0 "ribs"
    ((firstMatch (numFeatAt (some "vertical") "rib" true) lw).map some)
  let a2 := featRow a1 "ribs"
    ((firstMatch (featNumAt "rib" true true) lw).map some)
  let a3 := featRow a2 "teeth"
    ((firstMatch (numFeatAt none "teeth" false) lw).map some)
  let a4 := featRow a3 "teeth"
    ((firstMatch (featNumAt "teeth" false false) lw).map some)
  let a5 := featRow a4 "holes"
    ((firstMatch (numFeatAt (some "mounting") "hole" true) lw).map some)
  let a6 := featRow a5 "holes"
    ((firstMatch (featNumAt "hole" true false) lw).map some)
  let a7 := featRow a6 "bore"
    ((firstMatch (bWordAt "bore" false true) lw).map (fun _ => none))
  let a8 := featRow a7 "fillet"
    ((firstMatch (bWordAt "fillet" false false) lw).map (fun _ => none))
  let a9 := featRow a8 "chamfer"
    ((firstMatch (bWordAt "chamfer" false false) lw).map (fun _ => none))
  let a10 := featRow a9 "slots"
    ((firstMatch (bWordAt "slot" true true) lw).map (fun _ => none))
  let a11 := featRow a10 "slots"
    ((firstMatch (bWordAt "ventilation" false false) lw).map (fun _ => none))
  let a12 := featRow a11 "cutout"
    ((firstMatch (bWordAt "cutout" false false) lw).map (fun _ => none))
  featRow a12 "pattern"
    ((firstMatch (bWordAt "pattern" false false) lw).map (fun _ => none))

/-! ### Data model (`src/lib/types.ts`) -/

/-- `DesignParameter`: one named, bounded dimension of the design. -/
structure DesignParameter where
  key : String
  value : ℝ
  unit : String
  min : Option ℝ
  max : Option ℝ
  locked : Bool
  derivedFrom : Option String := none

/-- `DesignNode`: one operation node of the dependency graph.  The scoring
engine reads only `op`; the per-node `params` map is never read by it and is
omitted. -/
structure DesignNode where
  id : String
  op : String
  label : String
  children : List String
  depends_on : List String

/-- `DesignTree`: the parametric dependency tree.  The JS `Record`s keep
insertion order, modelled as association lists. -/
structure DesignTree where
  design_id : String
  name : String
  prompt : String
  parameters : List (String × DesignParameter)
  nodes : List (String × DesignNode)
  root_id : String
  created_at : ℕ

/-- The BREP measurement object handed to `scoreDesign` (`geometryMetrics`).
Fields that the source reads with an explicit absent-value default are
`Option`; the rest are the plain measured values. -/
structure GeometryMetrics where
  error : Bool
  is_valid : Bool
  volume : ℝ
  surface_area : ℝ
  dimensions : Option (List ℝ)
  face_count : ℕ
  edge_count : ℕ
  vertex_count : ℕ
  face_types : List (String × ℕ)
  edge_types : List (String × ℕ)
  aspect_ratio : Option ℝ
  compactness : Option ℝ
  symmetry_hint : Option ℝ

/-- A face-type histogram read, `faceTypes['KEY'] || 0`. -/
def ftCount (g : GeometryMetrics) (k : String) : ℕ :=
  (jsGet g.face_types k).getD 0

/-- An edge-type histogram read, `edgeTypes['KEY'] || 0`. -/
def etCount (g : GeometryMetrics) (k : String) : ℕ :=
  (jsGet g.edge_types k).getD 0

/-- `geometryMetrics && !geometryMetrics.error`: the metrics object when it is
present and carries no error marker, else `none`. -/
def liveMetrics (m : Option GeometryMetrics) : Option GeometryMetrics :=
  match m with
  | none => none
  | some g => if g.error then none else some g

/-- Identity of each human-readable issue / breakdown message of the source,
with its interpolated payloads. -/
inductive Issue where
  | noMetrics : Issue
  | brepCheckFailed : Issue
  | zeroVolume : Issue
  | zeroSurfaceArea : Issue
  | tooFewFacesForSolid : Issue
  | multiComponents (euler : ℤ) : Issue
  | extremeSlenderAspect (a : ℝ) : Issue
  | veryHighAspect (a : ℝ) : Issue
  | veryLowCompactness : Issue
  | highFaceCount (fc : ℕ) : Issue
  | tooFewFaces (fc : ℕ) : Issue
  | ratioMismatch (actual target : ℝ) : Issue
  | asymmetricGeometry (hint : ℝ) : Issue
  | expectedCylindrical (feat : String) : Issue
  | expectedRibs (fc : ℕ) : Issue
  | expectedTeeth (fc : ℕ) : Issue
  | expectedFillets : Issue
  | geometryTooSimple (feat : String) : Issue
  | expectedPatternLowFaces : Issue
  | gateInvalidTopology : Issue
  | gateZeroVolume : Issue
  | qualityNote (issues : List Issue) : Issue
  | specNote (issues : List Issue) : Issue

/-- `QualityResult` of stage 1. -/
structure QualityResult where
  overall : ℝ
  validity : ℝ
  manifold : ℝ
  componentCount : ℝ
  slenderness : ℝ
  complexityBudget : ℝ
  issues : List Issue

/-- `TargetSpec`: the structured target extracted from prompt and tree. -/
structure ParamTarget where
  value : ℝ
  min : Option ℝ
  max : Option ℝ
  locked : Bool

/-- `TargetSpec` (see the interface of the same name in the source). -/
structure TargetSpec where
  targetDims : List (String × ℝ)
  targetRatios : List (String × ℝ)
  wantsSymmetry : Bool
  symmetryConfidence : ℝ
  targetFeatures : List String
  featureCounts : List (String × ℝ)
  textureHint : String
  paramTargets : List (String × ParamTarget)

/-- `SpecMatchResult` of stage 2. -/
structure SpecMatchResult where
  overall : ℝ
  proportions : ℝ
  symmetry : ℝ
  features : ℝ
  paramBounds : ℝ
  issues : List Issue

/-- `ScoreResult` (`src/lib/types.ts`). -/
structure ScoreResult where
  overall : ℝ
  proportion : ℝ
  symmetry : ℝ
  featureCount : ℝ
  parameterRange : ℝ
  breakdown : List Issue

/-! ### Target-spec extraction (`extractTargetSpec`) -/

/-- The explicit symmetry keywords of `extractTargetSpec`. -/
def symmetryWordsX : List String :=
  ["symmetric", "symmetrical", "centered", "balanced", "uniform", "round",
   "circular", "cylindrical", "radial"]

/-- The implicit (shape-name) symmetry keywords of `extractTargetSpec`. -/
def implicitSymmetryWords : List String :=
  ["gear", "vase", "bottle", "cylinder", "sphere", "torus", "wheel", "disc",
   "ring", "flange", "bearing"]

/-- `/rib|teeth|tooth|hole|segment/i.test(param.key)` and friends: unanchored
case-insensitive alternation over the key. -/
def keyHasAny (key : String) (ws : List String) : Bool :=
  containsAny (lowerL key) ws

/-- The tree-parameter overlay step of the feature scan: a `count`-unit
parameter with a rib/tooth/hole/segment-like key contributes its value as the
feature count and registers the feature name. -/
noncomputable def featParamStep (acc : List String × List (String × ℝ))
    (p : DesignParameter) : List String × List (String × ℝ) :=
  if keyHasAny p.key ["rib", "teeth", "tooth", "hole", "segment"] ∧
      p.unit = "count" then
    let name :=
      if keyHasAny p.key ["rib"] then "ribs"
      else if keyHasAny p.key ["teeth", "tooth"] then "teeth"
      else if keyHasAny p.key ["hole"] then "holes"
      else "segments"
    ( if acc.1.contains name then acc.1 else acc.1 ++ [name],
      jsSet acc.2 name p.value )
  else acc

/-- First truthy of a `||` chain over optional numbers (a present `0` falls
through, as in JS). -/
noncomputable def jsOrOpt (a b : Option ℝ) : Option ℝ :=
  match a with
  | none => b
  | some v => if v = 0 then b else some v

/-- The `targetRatios` computation: `height_width = h / w` when a height-like
and a width-like dimension are both truthy and `w > 0`. -/
noncomputable def ratiosOf (dims : List (String × ℝ)) : List (String × ℝ) :=
  let h := jsOrOpt (jsOrOpt (jsGet dims "height") (jsGet dims "thickness"))
    (jsGet dims "depth")
  let w := jsOrOpt (jsGet dims "width") (jsGet dims "diameter")
  match h, w with
  | some hv, some wv =>
    if hv ≠ 0 ∧ 0 < wv then jsSet [] "height_width" (hv / wv) else []
  | _, _ => []

/-- `extractTargetSpec(tree, prompt)`. -/
noncomputable def extractTargetSpec (tree : DesignTree) (prompt : String) :
    TargetSpec :=
  let lw := lowerL prompt
  let dims0 : List (String × ℝ) :=
    (textDims lw).map (fun kv => (kv.1, (kv.2 : ℝ)))
  let targetDims :=
    tree.parameters.foldl
      (fun acc kp =>
        if kp.2.unit = "mm" ∨ kp.2.unit = "count" then
          jsSet acc kp.2.key kp.2.value
        else acc)
      dims0
  let targetRatios := ratiosOf targetDims
  let explicitSym := containsAny lw symmetryWordsX
  let impliedSym := containsAny lw implicitSymmetryWords
  let wantsSymmetry := explicitSym || impliedSym
  let symmetryConfidence : ℝ :=
    if explicitSym then 0.95 else if impliedSym then 0.75 else 0.3
  let tf := textFeatures lw
  let fc0 : List (String × ℝ) := tf.2.map (fun kv => (kv.1, (kv.2 : ℝ)))
  let feats :=
    tree.parameters.foldl (fun acc kp => featParamStep acc kp.2) (tf.1, fc0)
  let textureHint :=
    if feats.1.contains "ribs" || jsIncludes lw "ribbed" ||
        jsIncludes lw "groov" then "ribbed"
    else if jsIncludes lw "smooth" || jsIncludes lw "plain" then "smooth"
    else if feats.1.contains "pattern" || jsIncludes lw "repeating" then
      "patterned"
    else "unknown"
  let paramTargets :=
    tree.parameters.foldl
      (fun acc kp =>
        jsSet acc kp.2.key
          { value := kp.2.value, min := kp.2.min, max := kp.2.max,
            locked := kp.2.locked })
      []
  { targetDims, targetRatios,
    wantsSymmetry, symmetryConfidence,
    targetFeatures := feats.1, featureCounts := feats.2,
    textureHint, paramTargets }

/-! ### Rounding helper

`round(n) = Math.round(n * 100) / 100`; JS `Math.round` rounds half toward
positive infinity, i.e. `Math.round(x) = ⌊x + 1/2⌋`. -/

/-- Two-decimal rounding used for every published score. -/
noncomputable def round2 (n : ℝ) : ℝ := (⌊n * 100 + 1 / 2⌋ : ℤ) / 100

/-! ### Stage 1: `computeQuality` (spec-agnostic) -/

/-- The fixed degraded default returned when measurements are absent or carry
an error marker. -/
def defaultQuality : QualityResult :=
  { overall := 0.65, validity := 0.65, manifold := 0.65, componentCount := 0.8,
    slenderness := 0.7, complexityBudget := 0.7, issues := [Issue.noMetrics] }

/-- Axis 1, validity (`BRepCheck_Analyzer`). -/
noncomputable def qValidity (g : GeometryMetrics) : ℝ × List Issue :=
  if g.is_valid then (1.0, []) else (0.0, [Issue.brepCheckFailed])

/-- Axis 2, manifold/solid check. -/
noncomputable def qManifold (g : GeometryMetrics) : ℝ × List Issue :=
  if g.volume ≤ 0 then (0.0, [Issue.zeroVolume])
  else if g.surface_area ≤ 0 then (0.2, [Issue.zeroSurfaceArea])
  else if g.face_count < 4 then (0.3, [Issue.tooFewFacesForSolid])
  else (1.0, [])

/-- The Euler characteristic approximation `V - E + F`. -/
def eulerChar (g : GeometryMetrics) : ℤ :=
  (g.vertex_count : ℤ) - (g.edge_count : ℤ) + (g.face_count : ℤ)

/-- Axis 3, component count via the Euler characteristic. -/
noncomputable def qComponentCount (g : GeometryMetrics) : ℝ × List Issue :=
  if eulerChar g = 2 then (1.0, [])
  else if 2 < eulerChar g then (0.7, [Issue.multiComponents (eulerChar g)])
  else (0.8, [])

/-- Axis 4, slenderness/compactness sanity. -/
noncomputable def qSlenderness (g : GeometryMetrics) : ℝ × List Issue :=
  let aspect : ℝ := jsOrR g.aspect_ratio 1.0
  let sl0 : ℝ × List Issue :=
    if 100 < aspect then (0.2, [Issue.extremeSlenderAspect aspect])
    else if 50 < aspect then (0.4, [Issue.veryHighAspect aspect])
    else if 20 < aspect then (0.7, [])
    else (1.0, [])
  if g.compactness.getD 0 < 0.01 ∧ 0 < g.volume then
    (Min.min sl0.1 0.5, sl0.2 ++ [Issue.veryLowCompactness])
  else sl0

/-- Axis 5, complexity budget. -/
noncomputable def qComplexityBudget (g : GeometryMetrics) : ℝ × List Issue :=
  if 500 < g.face_count then (0.6, [Issue.highFaceCount g.face_count])
  else if 200 < g.face_count then (0.8, [])
  else if g.face_count < 4 ∧ 0 < g.volume then
    (0.4, [Issue.tooFewFaces g.face_count])
  else (1.0, [])

/-- The five-axis quality computation on live metrics. -/
noncomputable def computeQualityLive (g : GeometryMetrics) : QualityResult :=
  let v := qValidity g
  let mp := qManifold g
  let cc := qComponentCount g
  let sl := qSlenderness g
  let cb := qComplexityBudget g
  let overall := round2 (v.1 * 0.30 + mp.1 * 0.25 + cc.1 * 0.15 +
    sl.1 * 0.15 + cb.1 * 0.15)
  { overall, validity := v.1, manifold := mp.1, componentCount := cc.1,
    slenderness := sl.1, complexityBudget := cb.1,
    issues := v.2 ++ mp.2 ++ cc.2 ++ sl.2 ++ cb.2 }

/-- `computeQuality(metrics)`. -/
noncomputable def computeQuality (m : Option GeometryMetrics) : QualityResult :=
  match liveMetrics m with
  | none => defaultQuality
  | some g => computeQualityLive g

/-! ### Stage 2: `computeSpecMatch` (spec-conditioned) -/

/-- The tree-only proportion fallback (`treeProportionFallback`). -/
noncomputable def treeProportionFallback (tree : DesignTree) : ℝ :=
  let keys := tree.parameters.map (fun kp => kp.1)
  let hk := keys.find? (fun k =>
    keyHasAny k ["height", "thickness", "tall", "depth", "z_axis"])
  let wk := keys.find? (fun k =>
    keyHasAny k ["width", "diameter", "radius", "size", "length", "outer",
      "pitch"])
  match hk, wk with
  | some h, some w =>
    let hv := ((jsGet tree.parameters h).map (fun p => p.value)).getD 0
    let wv := ((jsGet tree.parameters w).map (fun p => p.value)).getD 0
    if wv = 0 ∨ hv = 0 then 0.6
    else
      let r := hv / wv
      if 0.1 ≤ r ∧ r ≤ 6.0 then 1.0
      else Max.max 0.3 (Real.exp (-2 *
        (Real.log (if r < 0.1 then 0.1 / r else r / 6.0)) ^ 2))
  | _, _ => 0.75

/-- The prompt-classified ideal aspect-ratio range of the proportions
heuristic (sequential keyword overrides, later classes win). -/
noncomputable def idealRange (lw : List Char) : ℝ × ℝ :=
  let r : ℝ × ℝ := (0.1, 6.0)
  let r := if containsAny lw ["gear", "disc", "plate", "washer", "flange"] then
    ((0.05 : ℝ), (1.5 : ℝ)) else r
  let r := if containsAny lw ["vase", "bottle", "column", "tower"] then
    ((1.5 : ℝ), (8.0 : ℝ)) else r
  if containsAny lw ["bracket", "mount", "frame"] then ((0.3 : ℝ), (4.0 : ℝ))
  else r

/-- Descending insertion (`sort((a, b) => b - a)` step). -/
noncomputable def insertDesc (x : ℝ) : List ℝ → List ℝ
  | [] => [x]
  | y :: r => if y ≤ x then x :: y :: r else y :: insertDesc x r

/-- Stable descending sort of the bounding-box dimensions. -/
noncomputable def sortDesc : List ℝ → List ℝ
  | [] => []
  | x :: r => insertDesc x (sortDesc r)

/-- `[...dims].filter(d => d > 0.001)`: the non-trivial dimensions. -/
noncomputable def posDims : List ℝ → List ℝ
  | [] => []
  | d :: r => if 0.001 < d then d :: posDims r else posDims r

/-- The truthy explicit target ratio (`spec.targetRatios.height_width`),
`none` when absent or zero. -/
noncomputable def hwRatio (spec : TargetSpec) : Option ℝ :=
  match jsGet spec.targetRatios "height_width" with
  | none => none
  | some r => if r = 0 then none else some r

/-- The proportions axis of `computeSpecMatch`, with its issues. -/
noncomputable def specProportions (spec : TargetSpec) (tree : DesignTree)
    (prompt : String) (m : Option GeometryMetrics) : ℝ × List Issue :=
  match liveMetrics m with
  | some g =>
    match g.dimensions with
    | some ds =>
      let sorted := sortDesc (posDims ds)
      if 2 ≤ sorted.length then
        let actualRatio := sorted.getD 0 0 / sorted.getD 1 0
        match hwRatio spec with
        | some targetRatio =>
          let logDev := |Real.log actualRatio - Real.log targetRatio|
          let p := Real.exp (-3 * logDev * logDev)
          (p, if p < 0.5 then [Issue.ratioMismatch actualRatio targetRatio]
            else [])
        | none =>
          let ir := idealRange (lowerL prompt)
          let p :=
            if ir.1 ≤ actualRatio ∧ actualRatio ≤ ir.2 then (1.0 : ℝ)
            else Max.max 0.3 (Real.exp (-2 *
              (Real.log (actualRatio /
                (if actualRatio < ir.1 then ir.1 else ir.2))) ^ 2))
          (p, [])
      else (0.75, [])
    | none => (treeProportionFallback tree, [])
  | none => (treeProportionFallback tree, [])

/-- The geometric symmetry evidence score of the symmetry axis. -/
noncomputable def geoSymmetryOf (g : GeometryMetrics) : ℝ :=
  let hint := g.symmetry_hint.getD 0.5
  let compact := g.compactness.getD 0
  let hasRadial :=
    0 < ftCount g "CYLINDER" + ftCount g "SPHERE" + ftCount g "CONE" +
      ftCount g "TORUS"
  let s : ℝ := 0.4 + (if hasRadial then 0.25 else 0) +
    (if 0.9 < hint then 0.2 else if 0.7 < hint then 0.1 else 0) +
    (if 0.5 < compact then 0.1 else 0)
  Min.min 1.0 s

/-- Whether the tree has a radial primitive node
(`['cylinder','sphere','torus','cone'].includes(op)`). -/
def hasRadialNode (tree : DesignTree) : Bool :=
  (tree.nodes.map (fun kn => kn.2.op)).any (fun op =>
    op = "cylinder" ∨ op = "sphere" ∨ op = "torus" ∨ op = "cone")

/-- The symmetry axis of `computeSpecMatch`, with its issues. -/
noncomputable def specSymmetry (spec : TargetSpec) (tree : DesignTree)
    (m : Option GeometryMetrics) : ℝ × List Issue :=
  match liveMetrics m with
  | some g =>
    let geo := geoSymmetryOf g
    if spec.wantsSymmetry then
      ( geo * spec.symmetryConfidence + (1 - spec.symmetryConfidence) * 0.7,
        if geo < 0.5 ∧ 0.7 < spec.symmetryConfidence then
          [Issue.asymmetricGeometry (g.symmetry_hint.getD 0.5)]
        else [] )
    else (0.7 + geo * 0.3, [])
  | none =>
    ( if spec.wantsSymmetry && hasRadialNode tree then 0.95
      else if spec.wantsSymmetry && !hasRadialNode tree then 0.4
      else if hasRadialNode tree then 0.85
      else 0.7,
      [] )

/-- The per-feature geometric corroboration credit of the features axis. -/
noncomputable def featCredit (spec : TargetSpec) (g : GeometryMetrics)
    (feat : String) : ℝ × List Issue :=
  if feat = "holes" ∨ feat = "bore" then
    if 2 ≤ ftCount g "CYLINDER" then (1, [])
    else (0, [Issue.expectedCylindrical feat])
  else if feat = "ribs" then
    if 20 < g.face_count ∧ 10 < ftCount g "PLANE" then (1, [])
    else if spec.textureHint = "ribbed" ∧ 15 < g.face_count then (1, [])
    else (0, [Issue.expectedRibs g.face_count])
  else if feat = "teeth" then
    if 30 < g.face_count then (1, [])
    else (0, [Issue.expectedTeeth g.face_count])
  else if feat = "fillet" then
    if 0 < ftCount g "TORUS" ∨ 0 < ftCount g "BSPLINE" then (1, [])
    else if 0 < etCount g "CIRCLE" then (0.5, [])
    else (0, [Issue.expectedFillets])
  else if feat = "chamfer" then
    if 8 < ftCount g "PLANE" then (1, []) else (0.5, [])
  else if feat = "slots" ∨ feat = "cutout" then
    if 12 < g.face_count then (1, [])
    else (0, [Issue.geometryTooSimple feat])
  else if feat = "pattern" then
    if 20 < g.face_count then (1, [])
    else (0, [Issue.expectedPatternLowFaces])
  else (0.5, [])

/-- The feature-count bonus step: `+0.05` (capped at 1) when a tree parameter
matching the first four characters of the feature name is within 2 of the
expected count. -/
noncomputable def featBonusStep (tree : DesignTree) (f : ℝ)
    (nc : String × ℝ) : ℝ :=
  match (tree.parameters.map (fun kp => kp.2)).find? (fun p =>
      occursIn ((nc.1.take 4).data) (lowerL p.key)) with
  | some p => if |p.value - nc.2| < 2 then Min.min 1.0 (f + 0.05) else f
  | none => f

/-- The features axis of `computeSpecMatch`, with its issues. -/
noncomputable def specFeatures (spec : TargetSpec) (tree : DesignTree)
    (m : Option GeometryMetrics) : ℝ × List Issue :=
  if 0 < spec.targetFeatures.length then
    match liveMetrics m with
    | some g =>
      let mi := spec.targetFeatures.foldl
        (fun acc feat =>
          let ci := featCredit spec g feat
          (acc.1 + ci.1, acc.2 ++ ci.2))
        ((0 : ℝ), ([] : List Issue))
      let total := spec.targetFeatures.length
      let base : ℝ :=
        if 0 < total then Min.min 1.0 (mi.1 / (total : ℝ)) else 0.7
      (spec.featureCounts.foldl (featBonusStep tree) base, mi.2)
    | none =>
      let nodeCount := tree.nodes.length
      let total := spec.targetFeatures.length
      ( if total ≤ 2 ∧ 3 ≤ nodeCount then 0.9
        else if total ≤ 2 ∧ 2 ≤ nodeCount then 0.8
        else if 2 < total ∧ 5 ≤ nodeCount then 0.9
        else if 2 < total ∧ 3 ≤ nodeCount then 0.7
        else 0.5,
        [] )
  else
    match liveMetrics m with
    | some g =>
      ( Min.min 1.0 (0.5 + Real.logb 2 ((Max.max g.face_count 1 : ℕ) : ℝ) / 12 +
          (g.face_types.length : ℝ) * 0.05),
        [] )
    | none =>
      ( if 3 ≤ tree.nodes.length then 0.85
        else if 2 ≤ tree.nodes.length then 0.7
        else 0.5,
        [] )

/-- The parameter-bounds axis of `computeSpecMatch`. -/
noncomputable def specParamBounds (spec : TargetSpec) : ℝ :=
  let params := spec.paramTargets.map (fun kp => kp.2)
  if 0 < params.length then
    let inBounds := params.countP (fun p =>
      (p.min.all (fun mn => decide (mn ≤ p.value))) &&
      (p.max.all (fun mx => decide (p.value ≤ mx))))
    let boundsRatio : ℝ :=
      if 0 < params.length then (inBounds : ℝ) / (params.length : ℝ) else 1.0
    let richness : ℝ := Min.min ((params.length : ℝ) / 5) 1.0
    boundsRatio * 0.75 + richness * 0.25
  else 0.8

/-- `computeSpecMatch(spec, tree, prompt, metrics)`. -/
noncomputable def computeSpecMatch (spec : TargetSpec) (tree : DesignTree)
    (prompt : String) (m : Option GeometryMetrics) : SpecMatchResult :=
  let pp := specProportions spec tree prompt m
  let sy := specSymmetry spec tree m
  let ft := specFeatures spec tree m
  let pb := specParamBounds spec
  let overall := round2 (pp.1 * 0.30 + sy.1 * 0.20 + ft.1 * 0.30 + pb * 0.20)
  { overall, proportions := pp.1, symmetry := sy.1, features := ft.1,
    paramBounds := pb, issues := pp.2 ++ sy.2 ++ ft.2 }

/-! ### Aggregation (`scoreDesign`) -/

/-- The quality gate: 1.0 by default; with live metrics, 0.4 when the BREP is
invalid (checked first), else 0.3 when the volume is non-positive. -/
noncomputable def qualityGate (m : Option GeometryMetrics) : ℝ :=
  match liveMetrics m with
  | none => 1.0
  | some g =>
    if g.is_valid = false then 0.4
    else if g.volume ≤ 0 then 0.3
    else 1.0

/-- `scoreDesign(tree, prompt, geometryMetrics?)`. -/
noncomputable def scoreDesign (tree : DesignTree) (prompt : String)
    (geometryMetrics : Option GeometryMetrics) : ScoreResult :=
  let quality := computeQuality geometryMetrics
  let targetSpec := extractTargetSpec tree prompt
  let specMatch := computeSpecMatch targetSpec tree prompt geometryMetrics
  let qg := qualityGate geometryMetrics
  let rawOverall := 0.7 * specMatch.overall + 0.3 * quality.overall
  let overall := round2 (qg * rawOverall)
  let breakdown : List Issue :=
    (match liveMetrics geometryMetrics with
      | some g => if g.is_valid then [] else [Issue.gateInvalidTopology]
      | none => []) ++
    (match liveMetrics geometryMetrics with
      | some g => if g.volume ≤ 0 then [Issue.gateZeroVolume] else []
      | none => []) ++
    (if quality.overall < 0.6 then [Issue.qualityNote quality.issues]
      else []) ++
    (if specMatch.overall < 0.6 then [Issue.specNote specMatch.issues]
      else [])
  { overall, proportion := round2 specMatch.proportions,
    symmetry := round2 specMatch.symmetry,
    featureCount := round2 specMatch.features,
    parameterRange := round2 quality.overall,
    breakdown }

/-! ### Rounding lemmas -/

theorem round2_mono {a b : ℝ} (h : a ≤ b) : round2 a ≤ round2 b := by
  unfold round2
  have hf : ⌊a * 100 + 1 / 2⌋ ≤ ⌊b * 100 + 1 / 2⌋ :=
    Int.floor_le_floor (by linarith)
  have hc : ((⌊a * 100 + 1 / 2⌋ : ℤ) : ℝ) ≤ ((⌊b * 100 + 1 / 2⌋ : ℤ) : ℝ) := by
    exact_mod_cast hf
  linarith

theorem round2_nonneg {a : ℝ} (h : 0 ≤ a) : 0 ≤ round2 a := by
  unfold round2
  have hf : (0 : ℤ) ≤ ⌊a * 100 + 1 / 2⌋ := Int.le_floor.mpr (by norm_num; linarith)
  have hc : (0 : ℝ) ≤ ((⌊a * 100 + 1 / 2⌋ : ℤ) : ℝ) := by exact_mod_cast hf
  linarith

theorem round2_le_one {a : ℝ} (h : a ≤ 1) : round2 a ≤ 1 := by
  unfold round2
  have hf : ⌊a * 100 + 1 / 2⌋ < 101 := Int.floor_lt.mpr (by push_cast; linarith)
  have hf' : ⌊a * 100 + 1 / 2⌋ ≤ 100 := by omega
  have hc : ((⌊a * 100 + 1 / 2⌋ : ℤ) : ℝ) ≤ 100 := by exact_mod_cast hf'
  linarith

theorem round2_eq {a : ℝ} (z : ℤ) (h1 : (z : ℝ) ≤ a * 100 + 1 / 2)
    (h2 : a * 100 + 1 / 2 < z + 1) : round2 a = (z : ℝ) / 100 := by
  unfold round2
  rw [Int.floor_eq_iff.mpr ⟨h1, by exact_mod_cast h2⟩]

theorem exp_le_one_of_nonpos {x : ℝ} (h : x ≤ 0) : Real.exp x ≤ 1 := by
  calc Real.exp x ≤ Real.exp 0 := Real.exp_le_exp.mpr h
  _ = 1 := Real.exp_zero

/-! ### Range lemmas for the individual axes -/

theorem maxexp2_nonneg (L : ℝ) : 0 ≤ Max.max 0.3 (Real.exp (-2 * L ^ 2)) :=
  le_trans (by norm_num) (le_max_left _ _)

theorem maxexp2_le_one (L : ℝ) : Max.max 0.3 (Real.exp (-2 * L ^ 2)) ≤ 1 :=
  max_le (by norm_num)
    (exp_le_one_of_nonpos (by nlinarith [sq_nonneg L]))

theorem exp3sq_le_one (L : ℝ) : Real.exp (-3 * |L| * |L|) ≤ 1 :=
  exp_le_one_of_nonpos (by nlinarith [abs_nonneg L])

theorem treeProportionFallback_nonneg (tree : DesignTree) :
    0 ≤ treeProportionFallback tree := by
  unfold treeProportionFallback
  dsimp only
  repeat' split
  all_goals first
    | exact maxexp2_nonneg _
    | norm_num

theorem treeProportionFallback_le_one (tree : DesignTree) :
    treeProportionFallback tree ≤ 1 := by
  unfold treeProportionFallback
  dsimp only
  repeat' split
  all_goals first
    | exact maxexp2_le_one _
    | norm_num

theorem specProportions_nonneg (spec : TargetSpec) (tree : DesignTree)
    (prompt : String) (m : Option GeometryMetrics) :
    0 ≤ (specProportions spec tree prompt m).1 := by
  unfold specProportions
  dsimp only
  repeat' split
  all_goals dsimp only
  all_goals first
    | exact (Real.exp_pos _).le
    | exact maxexp2_nonneg _
    | exact treeProportionFallback_nonneg tree
    | norm_num

theorem specProportions_le_one (spec : TargetSpec) (tree : DesignTree)
    (prompt : String) (m : Option GeometryMetrics) :
    (specProportions spec tree prompt m).1 ≤ 1 := by
  unfold specProportions
  dsimp only
  repeat' split
  all_goals dsimp only
  all_goals first
    | exact exp3sq_le_one _
    | exact maxexp2_le_one _
    | exact treeProportionFallback_le_one tree
    | norm_num

theorem geoSymmetryOf_ge (g : GeometryMetrics) : 0.4 ≤ geoSymmetryOf g := by
  unfold geoSymmetryOf
  dsimp only
  refine le_min (by norm_num) ?_
  repeat' split
  all_goals norm_num

theorem geoSymmetryOf_le_one (g : GeometryMetrics) : geoSymmetryOf g ≤ 1 := by
  unfold geoSymmetryOf
  dsimp only
  exact le_trans (min_le_left _ _) (by norm_num)

theorem specSymmetry_nonneg (spec : TargetSpec) (tree : DesignTree)
    (m : Option GeometryMetrics) (hc0 : 0 ≤ spec.symmetryConfidence)
    (hc1 : spec.symmetryConfidence ≤ 1) : 0 ≤ (specSymmetry spec tree m).1 := by
  unfold specSymmetry
  split
  · rename_i g hg
    have h1 := geoSymmetryOf_ge g
    have h2 := geoSymmetryOf_le_one g
    dsimp only
    split
    · dsimp only
      nlinarith
    · dsimp only
      nlinarith
  · dsimp only
    repeat' split
    all_goals norm_num

theorem specSymmetry_le_one (spec : TargetSpec) (tree : DesignTree)
    (m : Option GeometryMetrics) (hc0 : 0 ≤ spec.symmetryConfidence)
    (hc1 : spec.symmetryConfidence ≤ 1) : (specSymmetry spec tree m).1 ≤ 1 := by
  unfold specSymmetry
  split
  · rename_i g hg
    have h1 := geoSymmetryOf_ge g
    have h2 := geoSymmetryOf_le_one g
    dsimp only
    split
    · dsimp only
      nlinarith
    · dsimp only
      nlinarith
  · dsimp only
    repeat' split
    all_goals norm_num

theorem featCredit_nonneg (spec : TargetSpec) (g : GeometryMetrics)
    (feat : String) : 0 ≤ (featCredit spec g feat).1 := by
  unfold featCredit
  repeat' split
  all_goals norm_num

theorem featFold_nonneg (spec : TargetSpec) (g : GeometryMetrics)
    (l : List String) (a : ℝ × List Issue) (ha : 0 ≤ a.1) :
    0 ≤ (l.foldl
      (fun acc feat =>
        let ci := featCredit spec g feat
        (acc.1 + ci.1, acc.2 ++ ci.2)) a).1 := by
  induction l generalizing a with
  | nil => exact ha
  | cons x xs ih =>
    refine ih _ ?_
    have := featCredit_nonneg spec g x
    dsimp only
    linarith

theorem featBonusStep_mem (tree : DesignTree) {f : ℝ} (h0 : 0 ≤ f)
    (h1 : f ≤ 1) (nc : String × ℝ) :
    0 ≤ featBonusStep tree f nc ∧ featBonusStep tree f nc ≤ 1 := by
  unfold featBonusStep
  split
  · split
    · exact ⟨le_min (by norm_num) (by linarith),
        le_trans (min_le_left _ _) (by norm_num)⟩
    · exact ⟨h0, h1⟩
  · exact ⟨h0, h1⟩

theorem featBonusFold_mem (tree : DesignTree) (l : List (String × ℝ)) {f : ℝ}
    (h0 : 0 ≤ f) (h1 : f ≤ 1) :
    0 ≤ l.foldl (featBonusStep tree) f ∧
      l.foldl (featBonusStep tree) f ≤ 1 := by
  induction l generalizing f with
  | nil => exact ⟨h0, h1⟩
  | cons x xs ih =>
    have h := featBonusStep_mem tree h0 h1 x
    exact ih h.1 h.2

theorem logb2_term_nonneg (n : ℕ) :
    0 ≤ Real.logb 2 ((Max.max n 1 : ℕ) : ℝ) := by
  refine Real.logb_nonneg (by norm_num) ?_
  exact_mod_cast Nat.one_le_iff_ne_zero.mpr (by positivity)

theorem featBase_mem (spec : TargetSpec) (g : GeometryMetrics) :
    0 ≤ (if 0 < spec.targetFeatures.length then
        Min.min 1.0 ((spec.targetFeatures.foldl
          (fun acc feat =>
            (acc.1 + (featCredit spec g feat).1, acc.2 ++ (featCredit spec g feat).2))
          ((0 : ℝ), ([] : List Issue))).1 / (spec.targetFeatures.length : ℝ))
      else 0.7) ∧
    (if 0 < spec.targetFeatures.length then
        Min.min 1.0 ((spec.targetFeatures.foldl
          (fun acc feat =>
            (acc.1 + (featCredit spec g feat).1, acc.2 ++ (featCredit spec g feat).2))
          ((0 : ℝ), ([] : List Issue))).1 / (spec.targetFeatures.length : ℝ))
      else 0.7) ≤ 1 := by
  constructor
  · split
    · refine le_min (by norm_num) ?_
      refine div_nonneg ?_ (by positivity)
      exact featFold_nonneg spec g _ _ (by norm_num)
    · norm_num
  · split
    · exact le_trans (min_le_left _ _) (by norm_num)
    · norm_num

theorem specFeatures_nonneg (spec : TargetSpec) (tree : DesignTree)
    (m : Option GeometryMetrics) : 0 ≤ (specFeatures spec tree m).1 := by
  unfold specFeatures
  split
  · split
    · rename_i g hg
      dsimp only
      exact (featBonusFold_mem tree spec.featureCounts
        (featBase_mem spec g).1 (featBase_mem spec g).2).1
    · dsimp only
      repeat' split
      all_goals norm_num
  · split
    · rename_i g hg
      dsimp only
      refine le_min (by norm_num) ?_
      have h1 := logb2_term_nonneg g.face_count
      have h2 : (0 : ℝ) ≤ (g.face_types.length : ℝ) := Nat.cast_nonneg _
      nlinarith
    · dsimp only
      repeat' split
      all_goals norm_num

theorem specFeatures_le_one (spec : TargetSpec) (tree : DesignTree)
    (m : Option GeometryMetrics) : (specFeatures spec tree m).1 ≤ 1 := by
  unfold specFeatures
  split
  · split
    · rename_i g hg
      dsimp only
      exact (featBonusFold_mem tree spec.featureCounts
        (featBase_mem spec g).1 (featBase_mem spec g).2).2
    · dsimp only
      repeat' split
      all_goals norm_num
  · split
    · rename_i g hg
      dsimp only
      exact le_trans (min_le_left _ _) (by norm_num)
    · dsimp only
      repeat' split
      all_goals norm_num

theorem blend75_nonneg {a b : ℝ} (ha : 0 ≤ a) (hb : 0 ≤ b) :
    0 ≤ a * 0.75 + b * 0.25 := by nlinarith

theorem blend75_le_one {a b : ℝ} (ha1 : a ≤ 1) (hb1 : b ≤ 1) :
    a * 0.75 + b * 0.25 ≤ 1 := by nlinarith

theorem specParamBounds_nonneg (spec : TargetSpec) :
    0 ≤ specParamBounds spec := by
  unfold specParamBounds
  dsimp only
  split
  · exact blend75_nonneg
      (div_nonneg (Nat.cast_nonneg _) (Nat.cast_nonneg _))
      (le_min (by positivity) (by norm_num))
  · norm_num

theorem specParamBounds_le_one (spec : TargetSpec) :
    specParamBounds spec ≤ 1 := by
  unfold specParamBounds
  dsimp only
  split
  · rename_i hlen
    refine blend75_le_one ?_
      (le_trans (min_le_right _ _) (by norm_num))
    rw [div_le_one (by exact_mod_cast hlen)]
    exact_mod_cast List.countP_le_length _
  · norm_num

theorem qValidity_mem (g : GeometryMetrics) :
    0 ≤ (qValidity g).1 ∧ (qValidity g).1 ≤ 1 := by
  unfold qValidity
  split
  all_goals norm_num

theorem qManifold_mem (g : GeometryMetrics) :
    0 ≤ (qManifold g).1 ∧ (qManifold g).1 ≤ 1 := by
  unfold qManifold
  repeat' split
  all_goals norm_num

theorem qComponentCount_mem (g : GeometryMetrics) :
    0 ≤ (qComponentCount g).1 ∧ (qComponentCount g).1 ≤ 1 := by
  unfold qComponentCount
  repeat' split
  all_goals norm_num

theorem qSlenderness_mem (g : GeometryMetrics) :
    0 ≤ (qSlenderness g).1 ∧ (qSlenderness g).1 ≤ 1 := by
  unfold qSlenderness
  dsimp only
  repeat' split
  all_goals norm_num [min_def]

theorem qComplexityBudget_mem (g : GeometryMetrics) :
    0 ≤ (qComplexityBudget g).1 ∧ (qComplexityBudget g).1 ≤ 1 := by
  unfold qComplexityBudget
  repeat' split
  all_goals norm_num

theorem computeQuality_overall_nonneg (m : Option GeometryMetrics) :
    0 ≤ (computeQuality m).overall := by
  unfold computeQuality
  split
  · norm_num [defaultQuality]
  · rename_i g hg
    unfold computeQualityLive
    dsimp only
    refine round2_nonneg ?_
    have h1 := qValidity_mem g
    have h2 := qManifold_mem g
    have h3 := qComponentCount_mem g
    have h4 := qSlenderness_mem g
    have h5 := qComplexityBudget_mem g
    nlinarith [h1.1, h2.1, h3.1, h4.1, h5.1]

theorem computeQuality_overall_le_one (m : Option GeometryMetrics) :
    (computeQuality m).overall ≤ 1 := by
  unfold computeQuality
  split
  · norm_num [defaultQuality]
  · rename_i g hg
    unfold computeQualityLive
    dsimp only
    refine round2_le_one ?_
    have h1 := qValidity_mem g
    have h2 := qManifold_mem g
    have h3 := qComponentCount_mem g
    have h4 := qSlenderness_mem g
    have h5 := qComplexityBudget_mem g
    nlinarith [h1.2, h2.2, h3.2, h4.2, h5.2]

theorem extract_conf_mem (tree : DesignTree) (prompt : String) :
    0 ≤ (extractTargetSpec tree prompt).symmetryConfidence ∧
      (extractTargetSpec tree prompt).symmetryConfidence ≤ 1 := by
  unfold extractTargetSpec
  dsimp only
  repeat' split
  all_goals norm_num

theorem computeSpecMatch_proportions_def (spec : TargetSpec)
    (tree : DesignTree) (prompt : String) (m : Option GeometryMetrics) :
    (computeSpecMatch spec tree prompt m).proportions =
      (specProportions spec tree prompt m).1 := rfl

theorem computeSpecMatch_symmetry_def (spec : TargetSpec) (tree : DesignTree)
    (prompt : String) (m : Option GeometryMetrics) :
    (computeSpecMatch spec tree prompt m).symmetry =
      (specSymmetry spec tree m).1 := rfl

theorem computeSpecMatch_features_def (spec : TargetSpec) (tree : DesignTree)
    (prompt : String) (m : Option GeometryMetrics) :
    (computeSpecMatch spec tree prompt m).features =
      (specFeatures spec tree m).1 := rfl

theorem computeSpecMatch_overall_def (spec : TargetSpec) (tree : DesignTree)
    (prompt : String) (m : Option GeometryMetrics) :
    (computeSpecMatch spec tree prompt m).overall =
      round2 ((specProportions spec tree prompt m).1 * 0.30 +
        (specSymmetry spec tree m).1 * 0.20 +
        (specFeatures spec tree m).1 * 0.30 +
        specParamBounds spec * 0.20) := rfl

theorem computeSpecMatch_overall_nonneg (spec : TargetSpec)
    (tree : DesignTree) (prompt : String) (m : Option GeometryMetrics)
    (hc0 : 0 ≤ spec.symmetryConfidence) (hc1 : spec.symmetryConfidence ≤ 1) :
    0 ≤ (computeSpecMatch spec tree prompt m).overall := by
  rw [computeSpecMatch_overall_def]
  refine round2_nonneg ?_
  have h1 := specProportions_nonneg spec tree prompt m
  have h2 := specSymmetry_nonneg spec tree m hc0 hc1
  have h3 := specFeatures_nonneg spec tree m
  have h4 := specParamBounds_nonneg spec
  nlinarith

theorem computeSpecMatch_overall_le_one (spec : TargetSpec)
    (tree : DesignTree) (prompt : String) (m : Option GeometryMetrics)
    (hc0 : 0 ≤ spec.symmetryConfidence) (hc1 : spec.symmetryConfidence ≤ 1) :
    (computeSpecMatch spec tree prompt m).overall ≤ 1 := by
  rw [computeSpecMatch_overall_def]
  refine round2_le_one ?_
  have h1 := specProportions_le_one spec tree prompt m
  have h2 := specSymmetry_le_one spec tree m hc0 hc1
  have h3 := specFeatures_le_one spec tree m
  have h4 := specParamBounds_le_one spec
  nlinarith

theorem qualityGate_mem (m : Option GeometryMetrics) :
    0 ≤ qualityGate m ∧ qualityGate m ≤ 1 := by
  unfold qualityGate
  split
  · norm_num
  · repeat' split
    all_goals norm_num

theorem scoreDesign_overall_def (tree : DesignTree) (prompt : String)
    (m : Option GeometryMetrics) :
    (scoreDesign tree prompt m).overall =
      round2 (qualityGate m *
        (0.7 * (computeSpecMatch (extractTargetSpec tree prompt) tree prompt
          m).overall + 0.3 * (computeQuality m).overall)) := rfl

theorem scoreDesign_fields_def (tree : DesignTree) (prompt : String)
    (m : Option GeometryMetrics) :
    (scoreDesign tree prompt m).proportion =
      round2 (computeSpecMatch (extractTargetSpec tree prompt) tree prompt
        m).proportions ∧
    (scoreDesign tree prompt m).symmetry =
      round2 (computeSpecMatch (extractTargetSpec tree prompt) tree prompt
        m).symmetry ∧
    (scoreDesign tree prompt m).featureCount =
      round2 (computeSpecMatch (extractTargetSpec tree prompt) tree prompt
        m).features ∧
    (scoreDesign tree prompt m).parameterRange =
      round2 (computeQuality m).overall :=
  ⟨rfl, rfl, rfl, rfl⟩

theorem liveMetrics_some (g : GeometryMetrics) (he : g.error = false) :
    liveMetrics (some g) = some g := by
  simp [liveMetrics, he]

theorem gmu_fields (g : GeometryMetrics) (b : Bool) :
    ({ g with is_valid := b } : GeometryMetrics).error = g.error ∧
    ({ g with is_valid := b } : GeometryMetrics).is_valid = b ∧
    ({ g with is_valid := b } : GeometryMetrics).volume = g.volume := by
  cases g
  exact ⟨rfl, rfl, rfl⟩

theorem computeSpecMatch_is_valid_invariant (spec : TargetSpec)
    (tree : DesignTree) (prompt : String) (g : GeometryMetrics) (b : Bool)
    (he : g.error = false) :
    computeSpecMatch spec tree prompt (some { g with is_valid := b }) =
      computeSpecMatch spec tree prompt (some g) := by
  cases g
  dsimp only at he
  subst he
  rfl

theorem qAxes_is_valid_invariant (g : GeometryMetrics) (b : Bool) :
    qManifold { g with is_valid := b } = qManifold g ∧
    qComponentCount { g with is_valid := b } = qComponentCount g ∧
    qSlenderness { g with is_valid := b } = qSlenderness g ∧
    qComplexityBudget { g with is_valid := b } = qComplexityBudget g := by
  cases g
  exact ⟨rfl, rfl, rfl, rfl⟩

theorem qualityGate_invalid (g : GeometryMetrics) (he : g.error = false)
    (hb : g.is_valid = false) : qualityGate (some g) = 0.4 := by
  unfold qualityGate
  rw [liveMetrics_some g he]
  dsimp only
  rw [hb]
  simp

theorem qualityGate_valid_posvol (g : GeometryMetrics) (he : g.error = false)
    (hb : g.is_valid = true) (hv : 0 < g.volume) :
    qualityGate (some g) = 1.0 := by
  unfold qualityGate
  rw [liveMetrics_some g he]
  dsimp only
  rw [hb]
  simp [not_le.mpr hv]

/-! ### Concrete inputs used by witnesses and counterexamples -/

/-- An empty design tree. -/
def emptyTree : DesignTree :=
  { design_id := "d0", name := "empty", prompt := "", parameters := [],
    nodes := [], root_id := "root", created_at := 0 }

/-- A zero-volume, otherwise unremarkable measurement object (valid BREP). -/
noncomputable def mZero : GeometryMetrics :=
  { error := false, is_valid := true, volume := 0, surface_area := 50,
    dimensions := none, face_count := 0, edge_count := 0, vertex_count := 0,
    face_types := [], edge_types := [], aspect_ratio := none,
    compactness := none, symmetry_hint := none }

/-! ### Claim theorems -/

/-- C2: QualityGate precedence: for every call to `scoreDesign` with non-error
measurements, the gate multiplier is 0.4 when `is_valid` is false (checked
first), else 0.3 when volume ≤ 0, else 1.0; in particular a simultaneously
invalid and zero-volume shape is gated at 0.4, and any input with
`is_valid = false` yields overall ≤ 0.4. -/
theorem c2_quality_gate_precedence (tree : DesignTree) (prompt : String)
    (g : GeometryMetrics) (he : g.error = false) :
    (qualityGate (some g) =
      if g.is_valid = false then 0.4 else if g.volume ≤ 0 then 0.3 else 1.0) ∧
    (g.is_valid = false → (scoreDesign tree prompt (some g)).overall ≤ 0.4) := by
  constructor
  · unfold qualityGate
    rw [liveMetrics_some g he]
  · intro hb
    rw [scoreDesign_overall_def, qualityGate_invalid g he hb]
    obtain ⟨hc0, hc1⟩ := extract_conf_mem tree prompt
    have hsm0 := computeSpecMatch_overall_nonneg _ tree prompt (some g) hc0 hc1
    have hsm1 := computeSpecMatch_overall_le_one _ tree prompt (some g) hc0 hc1
    have hq0 := computeQuality_overall_nonneg (some g)
    have hq1 := computeQuality_overall_le_one (some g)
    have h04 : round2 (0.4 : ℝ) = ((40 : ℤ) : ℝ) / 100 :=
      round2_eq 40 (by norm_num) (by norm_num)
    refine le_trans (@round2_mono _ 0.4 (by nlinarith)) ?_
    rw [h04]
    norm_num

/-- Witness for C2 at a concrete invalid, zero-volume measurement object. -/
theorem c2_quality_gate_precedence_witness :
    (qualityGate (some ({ mZero with is_valid := false })) =
      if ({ mZero with is_valid := false } : GeometryMetrics).is_valid = false
      then 0.4
      else if ({ mZero with is_valid := false } : GeometryMetrics).volume ≤ 0
      then 0.3 else 1.0) ∧
    (scoreDesign emptyTree "" (some ({ mZero with is_valid := false }))).overall ≤
      0.4 := by
  have h := c2_quality_gate_precedence emptyTree ""
    ({ mZero with is_valid := false }) rfl
  exact ⟨h.1, h.2 rfl⟩

/-- C9: without usable measurements, the symmetry sub-score of
`computeSpecMatch` takes exactly one of the four fallback values: 0.95
(symmetry desired, radial primitive node present), 0.4 (desired, none),
0.85 (not desired, radial node present), 0.7 (otherwise). -/
theorem c9_fallback_symmetry_values (spec : TargetSpec) (tree : DesignTree)
    (prompt : String) (m : Option GeometryMetrics)
    (h : liveMetrics m = none) :
    (computeSpecMatch spec tree prompt m).symmetry =
      if spec.wantsSymmetry then
        (if hasRadialNode tree then 0.95 else 0.4)
      else
        (if hasRadialNode tree then 0.85 else 0.7) := by
  rw [computeSpecMatch_symmetry_def]
  unfold specSymmetry
  rw [h]
  dsimp only
  cases hw : spec.wantsSymmetry <;> cases hr : hasRadialNode tree <;>
    simp [hw, hr]

/-- A tree containing one cylinder primitive node. -/
def cylTree : DesignTree :=
  { emptyTree with nodes := [("n1",
    { id := "n1", op := "cylinder", label := "c", children := [],
      depends_on := [] })] }

/-- Witness for C9: a prompt that desires symmetry and a tree with a radial
primitive yield the 0.95 fallback. -/
theorem c9_fallback_symmetry_values_witness :
    (computeSpecMatch (extractTargetSpec cylTree "round") cylTree "round"
      none).symmetry = 0.95 := by
  have h1 : (extractTargetSpec cylTree "round").wantsSymmetry = true := rfl
  have h2 : hasRadialNode cylTree = true := rfl
  rw [c9_fallback_symmetry_values (extractTargetSpec cylTree "round") cylTree
    "round" none rfl, h1, h2]
  norm_num

/-- C3 counterexample: on absent measurements the degraded default is not
0.65 on the componentCount axis. -/
theorem c3_degraded_default_counterexample :
    (computeQuality none).componentCount = 0.8 ∧
    (computeQuality none).componentCount ≠ 0.65 := by
  have h : (computeQuality none).componentCount = 0.8 := rfl
  refine ⟨h, ?_⟩
  rw [h]
  norm_num

/-- C3 amended: whenever measurements are absent or carry an error marker,
`computeQuality` returns the fixed degraded default — 0.65 on overall,
validity and manifold, 0.8 on componentCount, 0.7 on slenderness and
complexityBudget — with the single no-measurements issue note. -/
theorem c3_degraded_default_amended (m : Option GeometryMetrics)
    (h : liveMetrics m = none) :
    computeQuality m =
      { overall := 0.65, validity := 0.65, manifold := 0.65,
        componentCount := 0.8, slenderness := 0.7, complexityBudget := 0.7,
        issues := [Issue.noMetrics] } := by
  unfold computeQuality
  rw [h]
  rfl

/-- Witness for C3 at absent measurements. -/
theorem c3_degraded_default_amended_witness :
    computeQuality none =
      { overall := 0.65, validity := 0.65, manifold := 0.65,
        componentCount := 0.8, slenderness := 0.7, complexityBudget := 0.7,
        issues := [Issue.noMetrics] } :=
  c3_degraded_default_amended none rfl

/-- C6: whenever the target specification has no target features, the
features sub-score of `computeSpecMatch` is at least 0.5 (general-complexity
scoring) and is never 0. -/
theorem c6_empty_features_floor (spec : TargetSpec) (tree : DesignTree)
    (prompt : String) (m : Option GeometryMetrics)
    (h : spec.targetFeatures = []) :
    0.5 ≤ (computeSpecMatch spec tree prompt m).features ∧
      (computeSpecMatch spec tree prompt m).features ≠ 0 := by
  have hmain : 0.5 ≤ (computeSpecMatch spec tree prompt m).features := by
    rw [computeSpecMatch_features_def]
    unfold specFeatures
    rw [h, if_neg (by decide)]
    split
    · rename_i g hg
      dsimp only
      refine le_min (by norm_num) ?_
      have h1 := logb2_term_nonneg g.face_count
      have h2 : (0 : ℝ) ≤ (g.face_types.length : ℝ) := Nat.cast_nonneg _
      nlinarith
    · dsimp only
      repeat' split
      all_goals norm_num
  exact ⟨hmain, by intro h0; rw [h0] at hmain; norm_num at hmain⟩

/-- Witness for C6: empty prompt, empty tree, no measurements. -/
theorem c6_empty_features_floor_witness :
    0.5 ≤ (computeSpecMatch (extractTargetSpec emptyTree "") emptyTree ""
      none).features ∧
    (computeSpecMatch (extractTargetSpec emptyTree "") emptyTree ""
      none).features ≠ 0 :=
  c6_empty_features_floor (extractTargetSpec emptyTree "") emptyTree "" none
    rfl

theorem find_map_update {α : Type _} (k : String) (v : α)
    (m : List (String × α)) (h : m.any (fun p => p.1 = k) = true) :
    jsGet (m.map (fun p => if p.1 = k then (k, v) else p)) k = some v := by
  induction m with
  | nil => simp at h
  | cons p t ih =>
    unfold jsGet
    by_cases hp : p.1 = k
    · simp only [List.map_cons, if_pos hp]
      rw [List.find?_cons_of_pos _ (by simp)]
      rfl
    · simp only [List.map_cons, if_neg hp]
      rw [List.find?_cons_of_neg _ (by simp [hp])]
      have h' : t.any (fun p => p.1 = k) = true := by
        simp only [List.any_cons, Bool.or_eq_true, decide_eq_true_eq] at h
        rcases h with h | h
        · exact absurd h hp
        · exact h
      exact ih h'

theorem find_append_new {α : Type _} (k : String) (v : α)
    (m : List (String × α)) (h : m.any (fun p => p.1 = k) = false) :
    jsGet (m ++ [(k, v)]) k = some v := by
  induction m with
  | nil =>
    unfold jsGet
    rw [List.nil_append, List.find?_cons_of_pos _ (by simp)]
    rfl
  | cons p t ih =>
    simp only [List.any_cons, Bool.or_eq_false_iff, decide_eq_false_iff_not]
      at h
    unfold jsGet
    rw [List.cons_append, List.find?_cons_of_neg _ (by simp [h.1])]
    exact ih h.2

theorem jsGet_jsSet_same {α : Type _} (m : List (String × α)) (k : String)
    (v : α) : jsGet (jsSet m k v) k = some v := by
  unfold jsSet
  split
  · exact find_map_update k v m (by assumption)
  · rename_i hno
    exact find_append_new k v m (by simpa only [Bool.not_eq_true] using hno)

theorem find_map_update_other {α : Type _} (k k' : String) (v : α)
    (hk : k' ≠ k) (m : List (String × α)) :
    jsGet (m.map (fun p => if p.1 = k then (k, v) else p)) k' = jsGet m k' := by
  induction m with
  | nil => rfl
  | cons p t ih =>
    unfold jsGet at ih ⊢
    by_cases hp : p.1 = k
    · simp only [List.map_cons, if_pos hp]
      rw [List.find?_cons_of_neg _ (by simp [Ne.symm hk]),
        List.find?_cons_of_neg _ (by simp [hp, Ne.symm hk])]
      exact ih
    · simp only [List.map_cons, if_neg hp]
      by_cases hp' : p.1 = k'
      · rw [List.find?_cons_of_pos _ (by simp [hp']),
          List.find?_cons_of_pos _ (by simp [hp'])]
      · rw [List.find?_cons_of_neg _ (by simp [hp']),
          List.find?_cons_of_neg _ (by simp [hp'])]
        exact ih

theorem find_append_other {α : Type _} (k k' : String) (v : α) (hk : k' ≠ k)
    (m : List (String × α)) :
    jsGet (m ++ [(k, v)]) k' = jsGet m k' := by
  induction m with
  | nil =>
    unfold jsGet
    rw [List.nil_append, List.find?_cons_of_neg _ (by simp [Ne.symm hk])]
  | cons p t ih =>
    unfold jsGet at ih ⊢
    by_cases hp' : p.1 = k'
    · rw [List.cons_append, List.find?_cons_of_pos _ (by simp [hp']),
        List.find?_cons_of_pos _ (by simp [hp'])]
    · rw [List.cons_append, List.find?_cons_of_neg _ (by simp [hp']),
        List.find?_cons_of_neg _ (by simp [hp'])]
      exact ih

theorem jsGet_jsSet_other {α : Type _} (m : List (String × α)) (k k' : String)
    (v : α) (hk : k' ≠ k) : jsGet (jsSet m k v) k' = jsGet m k' := by
  unfold jsSet
  split
  · exact find_map_update_other k k' v hk m
  · exact find_append_other k k' v hk m

/-- The parameter-overlay fold never touches a key no `mm`/`count` parameter
carries. -/
theorem overlay_skip (k : String) (l : List (String × DesignParameter))
    (init : List (String × ℝ))
    (h : ∀ q ∈ l.map (fun kp => kp.2),
      (q.unit = "mm" ∨ q.unit = "count") → q.key ≠ k) :
    jsGet (l.foldl (fun acc kp =>
      if kp.2.unit = "mm" ∨ kp.2.unit = "count" then
        jsSet acc kp.2.key kp.2.value else acc) init) k = jsGet init k := by
  induction l generalizing init with
  | nil => rfl
  | cons x t ih =>
    simp only [List.foldl_cons]
    by_cases hu : x.2.unit = "mm" ∨ x.2.unit = "count"
    · rw [if_pos hu,
        ih _ (fun q hq hq2 => h q (List.mem_cons_of_mem _ hq) hq2)]
      exact jsGet_jsSet_other init x.2.key k x.2.value
        (Ne.symm (h x.2 (by simp) hu))
    · rw [if_neg hu]
      exact ih _ (fun q hq hq2 => h q (List.mem_cons_of_mem _ hq) hq2)

/-- After the parameter-overlay fold, the entry for a key carried by exactly
one `mm`/`count` parameter holds that parameter's value, whatever the
text-derived initial record held. -/
theorem overlay_last (k : String) (p : DesignParameter)
    (l : List (String × DesignParameter)) (init : List (String × ℝ))
    (hp : (l.map (fun kp => kp.2)).filter (fun q =>
      decide (q.unit = "mm" ∨ q.unit = "count") && decide (q.key = k)) =
      [p]) :
    jsGet (l.foldl (fun acc kp =>
      if kp.2.unit = "mm" ∨ kp.2.unit = "count" then
        jsSet acc kp.2.key kp.2.value else acc) init) k = some p.value := by
  induction l generalizing init with
  | nil => simp at hp
  | cons x t ih =>
    simp only [List.map_cons, List.filter_cons] at hp
    simp only [List.foldl_cons]
    by_cases hx : (decide (x.2.unit = "mm" ∨ x.2.unit = "count") &&
        decide (x.2.key = k)) = true
    · rw [if_pos hx] at hp
      obtain ⟨hxu, hxk⟩ := by
        simpa only [Bool.and_eq_true, decide_eq_true_eq] using hx
      obtain ⟨hxp, hft⟩ := List.cons_eq_cons.mp hp
      rw [if_pos hxu, overlay_skip k t _ ?nok]
      case nok =>
        intro q hq hqu
        intro hqk
        have hmem : q ∈ (t.map (fun kp => kp.2)).filter (fun q =>
            decide (q.unit = "mm" ∨ q.unit = "count") &&
            decide (q.key = k)) :=
          List.mem_filter.mpr ⟨hq, by simp [hqu, hqk]⟩
        rw [hft] at hmem
        simp at hmem
      rw [hxk, jsGet_jsSet_same, hxp]
    · rw [if_neg hx] at hp
      by_cases hu : x.2.unit = "mm" ∨ x.2.unit = "count"
      · rw [if_pos hu]
        exact ih _ hp
      · rw [if_neg hu]
        exact ih _ hp

/-- C7: graph-over-text precedence: a `mm`/`count` design parameter whose key
coincides with a text-derived target dimension name ends up as the recorded
target dimension — the graph value wins. -/
theorem c7_graph_over_text (tree : DesignTree) (prompt : String)
    (p : DesignParameter)
    (_hunit : p.unit = "mm" ∨ p.unit = "count")
    (_hkey : (textDims (lowerL prompt)).any (fun kv => kv.1 = p.key) = true)
    (huniq : (tree.parameters.map (fun kp => kp.2)).filter (fun q =>
      decide (q.unit = "mm" ∨ q.unit = "count") && decide (q.key = p.key)) =
      [p]) :
    jsGet (extractTargetSpec tree prompt).targetDims p.key = some p.value := by
  have hd : (extractTargetSpec tree prompt).targetDims =
      tree.parameters.foldl (fun acc kp =>
        if kp.2.unit = "mm" ∨ kp.2.unit = "count" then
          jsSet acc kp.2.key kp.2.value else acc)
        ((textDims (lowerL prompt)).map (fun kv => (kv.1, (kv.2 : ℝ)))) := rfl
  rw [hd]
  exact overlay_last p.key p tree.parameters _ huniq

/-- A graph parameter named `height` with value 55 mm. -/
noncomputable def heightParam : DesignParameter :=
  { key := "height", value := 55, unit := "mm", min := none, max := none,
    locked := false }

/-- A tree holding only the `height` parameter. -/
noncomputable def heightTree : DesignTree :=
  { emptyTree with parameters := [("height", heightParam)] }

/-- Witness for C7: the prompt asks for a 30 mm height, the graph parameter
says 55; the recorded target dimension is the graph value. -/
theorem c7_graph_over_text_witness :
    jsGet (extractTargetSpec heightTree "height of 30 mm").targetDims
      "height" = some heightParam.value :=
  c7_graph_over_text heightTree "height of 30 mm" heightParam (Or.inl rfl)
    (by rfl) (by rfl)

/-- Measurements with no cylindrical faces and trivial topology. -/
noncomputable def mNoCyl : GeometryMetrics :=
  { error := false, is_valid := true, volume := 100, surface_area := 100,
    dimensions := none, face_count := 0, edge_count := 0, vertex_count := 0,
    face_types := [], edge_types := [], aspect_ratio := none,
    compactness := none, symmetry_hint := none }

/-- C10: the features sub-score has no positive floor once features are
targeted: on the prompt "3 holes" (targeted features exactly `["holes"]`),
measurements with fewer than two cylindrical faces and no applicable
feature-count bonus give a features sub-score of exactly 0. -/
theorem c10_features_no_floor :
    (extractTargetSpec emptyTree "3 holes").targetFeatures = ["holes"] ∧
    (computeSpecMatch (extractTargetSpec emptyTree "3 holes") emptyTree
      "3 holes" (some mNoCyl)).features = 0 := by
  refine ⟨rfl, ?_⟩
  rw [computeSpecMatch_features_def]
  unfold specFeatures
  rw [show (extractTargetSpec emptyTree "3 holes").targetFeatures = ["holes"]
      from rfl,
    show (extractTargetSpec emptyTree "3 holes").featureCounts =
      [("holes", ((3 : ℕ) : ℝ))] from rfl,
    show liveMetrics (some mNoCyl) = some mNoCyl from rfl]
  rw [if_pos (by decide : 0 < (["holes"] : List String).length)]
  dsimp only
  rw [if_pos (by decide : 0 < (["holes"] : List String).length)]
  simp only [List.foldl_cons, List.foldl_nil]
  unfold featCredit
  rw [if_pos (Or.inl rfl), if_neg (by decide : ¬2 ≤ ftCount mNoCyl "CYLINDER")]
  unfold featBonusStep
  rw [show (emptyTree.parameters.map (fun kp => kp.2)).find? (fun p =>
      occursIn (((("holes", ((3 : ℕ) : ℝ)) : String × ℝ).1.take 4).data)
        (lowerL p.key)) = none from rfl]
  dsimp only
  norm_num [min_def]

/-- C4 amended: with measurements and no explicit target ratio, the
proportions sub-score is 1.0 when the measured ratio of the two largest
non-trivial bounding-box dimensions lies in the prompt-classified ideal
range, and otherwise is the Gaussian-in-log-space decay with coefficient 2,
`exp(−2·(ln(r/b))²)`, anchored at the nearest bound `b` and floored at 0.3
(the explicit-target branch uses coefficient 3; the range branch does not). -/
theorem c4_proportions_fallback_decay (spec : TargetSpec) (tree : DesignTree)
    (prompt : String) (m : Option GeometryMetrics) (g : GeometryMetrics)
    (ds : List ℝ) (hm : liveMetrics m = some g) (hd : g.dimensions = some ds)
    (hnt : hwRatio spec = none)
    (hlen : 2 ≤ (sortDesc (posDims ds)).length) :
    (computeSpecMatch spec tree prompt m).proportions =
      (if (idealRange (lowerL prompt)).1 ≤
            (sortDesc (posDims ds)).getD 0 0 /
              (sortDesc (posDims ds)).getD 1 0 ∧
          (sortDesc (posDims ds)).getD 0 0 /
              (sortDesc (posDims ds)).getD 1 0 ≤
            (idealRange (lowerL prompt)).2 then (1.0 : ℝ)
       else Max.max 0.3 (Real.exp (-2 *
         (Real.log ((sortDesc (posDims ds)).getD 0 0 /
            (sortDesc (posDims ds)).getD 1 0 /
          (if (sortDesc (posDims ds)).getD 0 0 /
              (sortDesc (posDims ds)).getD 1 0 <
              (idealRange (lowerL prompt)).1 then
            (idealRange (lowerL prompt)).1
           else (idealRange (lowerL prompt)).2))) ^ 2))) := by
  rw [computeSpecMatch_proportions_def]
  unfold specProportions
  rw [hm]
  dsimp only
  rw [hd]
  dsimp only
  rw [if_pos hlen, hnt]

/-- Measurements whose bounding box is 6.6 × 1 × (degenerate). -/
noncomputable def mDims : GeometryMetrics :=
  { error := false, is_valid := true, volume := 100, surface_area := 100,
    dimensions := some [6.6, 1], face_count := 0, edge_count := 0,
    vertex_count := 0, face_types := [], edge_types := [],
    aspect_ratio := none, compactness := none, symmetry_hint := none }

theorem posDims_66 : posDims [(6.6 : ℝ), 1] = [(6.6 : ℝ), 1] := by
  simp only [posDims]
  norm_num

theorem sortDesc_66 : sortDesc [(6.6 : ℝ), 1] = [(6.6 : ℝ), 1] := by
  simp only [sortDesc, insertDesc]
  norm_num

/-- Direct evaluation of the proportions axis on `mDims` with an empty
prompt: ratio 6.6 exceeds the default ideal range, so the −2-coefficient
decay anchored at 6.0 applies. -/
theorem mDims_proportions_eval :
    (computeSpecMatch (extractTargetSpec emptyTree "") emptyTree ""
      (some mDims)).proportions =
      Max.max 0.3 (Real.exp (-2 * (Real.log (6.6 / 1 / 6.0)) ^ 2)) := by
  rw [computeSpecMatch_proportions_def]
  unfold specProportions
  rw [show liveMetrics (some mDims) = some mDims from rfl]
  dsimp only
  rw [show mDims.dimensions = some [(6.6 : ℝ), 1] from rfl]
  dsimp only
  rw [posDims_66, sortDesc_66]
  rw [if_pos (by norm_num : 2 ≤ ([(6.6 : ℝ), 1]).length)]
  rw [show hwRatio (extractTargetSpec emptyTree "") = none from rfl]
  dsimp only
  rw [show ([(6.6 : ℝ), 1]).getD 0 0 = (6.6 : ℝ) from rfl,
    show ([(6.6 : ℝ), 1]).getD 1 0 = (1 : ℝ) from rfl,
    show idealRange (lowerL "") = ((0.1 : ℝ), (6.0 : ℝ)) from rfl]
  dsimp only
  rw [if_neg (by norm_num), if_neg (by norm_num)]

/-- Witness for C4 at `mDims` (ratio 6.6, default range, anchored at 6.0). -/
theorem c4_proportions_fallback_decay_witness :
    (computeSpecMatch (extractTargetSpec emptyTree "") emptyTree ""
      (some mDims)).proportions =
      Max.max 0.3 (Real.exp (-2 * (Real.log (6.6 / 1 / 6.0)) ^ 2)) := by
  rw [c4_proportions_fallback_decay (extractTargetSpec emptyTree "")
    emptyTree "" (some mDims) mDims [(6.6 : ℝ), 1] rfl rfl rfl
    (by rw [posDims_66, sortDesc_66]; norm_num)]
  rw [posDims_66, sortDesc_66]
  rw [show ([(6.6 : ℝ), 1]).getD 0 0 = (6.6 : ℝ) from rfl,
    show ([(6.6 : ℝ), 1]).getD 1 0 = (1 : ℝ) from rfl,
    show idealRange (lowerL "") = ((0.1 : ℝ), (6.0 : ℝ)) from rfl]
  dsimp only
  rw [if_neg (by norm_num), if_neg (by norm_num)]

/-- C4 counterexample: the range-branch decay does not equal the
−3-coefficient Gaussian the claim asserts ("the same" decay as for explicit
targets): at ratio 6.6 against bound 6.0 the two differ. -/
theorem c4_proportions_fallback_decay_counterexample :
    (computeSpecMatch (extractTargetSpec emptyTree "") emptyTree ""
      (some mDims)).proportions ≠
      Max.max 0.3 (Real.exp (-3 * (Real.log (6.6 / 1 / 6.0)) ^ 2)) := by
  rw [mDims_proportions_eval]
  have hr : (6.6 / 1 / 6.0 : ℝ) = 1.1 := by norm_num
  rw [hr]
  have hL0 : 0 < Real.log (1.1 : ℝ) := Real.log_pos (by norm_num)
  have hLe : Real.log (1.1 : ℝ) ≤ 0.1 := by
    rw [Real.log_le_iff_le_exp (by norm_num)]
    have hpow : Real.exp (0.1 : ℝ) ^ (10 : ℕ) = Real.exp 1 := by
      rw [← Real.exp_nat_mul]
      norm_num
    have h10 : (1.1 : ℝ) ^ (10 : ℕ) < Real.exp (0.1 : ℝ) ^ (10 : ℕ) := by
      rw [hpow]
      have h9 := Real.exp_one_gt_d9
      norm_num at h9 ⊢
      linarith
    exact le_of_lt (lt_of_pow_lt_pow_left₀ 10 (Real.exp_pos _).le h10)
  have hsq : Real.log (1.1 : ℝ) ^ 2 ≤ 0.01 := by nlinarith
  have ha2 : (0.3 : ℝ) ≤ Real.exp (-2 * Real.log (1.1 : ℝ) ^ 2) := by
    have h1 : (-0.02 : ℝ) ≤ -2 * Real.log (1.1 : ℝ) ^ 2 := by nlinarith
    have h2 := Real.add_one_le_exp (-0.02 : ℝ)
    have h3 := Real.exp_le_exp.mpr h1
    linarith
  have ha3 : (0.3 : ℝ) ≤ Real.exp (-3 * Real.log (1.1 : ℝ) ^ 2) := by
    have h1 : (-0.03 : ℝ) ≤ -3 * Real.log (1.1 : ℝ) ^ 2 := by nlinarith
    have h2 := Real.add_one_le_exp (-0.03 : ℝ)
    have h3 := Real.exp_le_exp.mpr h1
    linarith
  rw [max_eq_right ha2, max_eq_right ha3]
  intro heq
  have hinj := Real.exp_injective heq
  have hL2 : Real.log (1.1 : ℝ) ^ 2 = 0 := by linarith
  have hL : Real.log (1.1 : ℝ) = 0 :=
    (pow_eq_zero_iff (by norm_num : (2 : ℕ) ≠ 0)).mp hL2
  linarith

theorem computeQualityLive_is_valid_mono (g : GeometryMetrics) :
    (computeQualityLive { g with is_valid := false }).overall ≤
      (computeQualityLive { g with is_valid := true }).overall := by
  obtain ⟨hm, hc, hs, hb⟩ := qAxes_is_valid_invariant g false
  obtain ⟨hm', hc', hs', hb'⟩ := qAxes_is_valid_invariant g true
  have hvf : qValidity { g with is_valid := false } =
      (0.0, [Issue.brepCheckFailed]) := by
    cases g
    rfl
  have hvt : qValidity { g with is_valid := true } = (1.0, []) := by
    cases g
    rfl
  unfold computeQualityLive
  dsimp only
  rw [hvf, hvt, hm, hc, hs, hb, hm', hc', hs', hb']
  refine round2_mono ?_
  dsimp only
  linarith

/-- C1 amended: holding everything else fixed, for error-free measurements of
positive volume, `is_valid = false` never yields a higher overall score than
`is_valid = true`.  (The restriction to positive volume is forced: at
volume ≤ 0 the gate precedence of §4.4 gates the valid shape at 0.3 but the
invalid one at 0.4, reversing the order — see the counterexample.) -/
theorem c1_gate_monotonicity_amended (tree : DesignTree) (prompt : String)
    (g : GeometryMetrics) (he : g.error = false) (hv : 0 < g.volume) :
    (scoreDesign tree prompt (some { g with is_valid := false })).overall ≤
      (scoreDesign tree prompt (some { g with is_valid := true })).overall := by
  obtain ⟨hef, hif, hvf⟩ := gmu_fields g false
  obtain ⟨het, hit, hvt⟩ := gmu_fields g true
  have hgf : qualityGate (some { g with is_valid := false }) = 0.4 :=
    qualityGate_invalid _ (by rw [hef, he]) hif
  have hgt : qualityGate (some { g with is_valid := true }) = 1.0 :=
    qualityGate_valid_posvol _ (by rw [het, he]) hit (by rw [hvt]; exact hv)
  have hsmf := computeSpecMatch_is_valid_invariant
    (extractTargetSpec tree prompt) tree prompt g false he
  have hsmt := computeSpecMatch_is_valid_invariant
    (extractTargetSpec tree prompt) tree prompt g true he
  have hq : (computeQuality (some { g with is_valid := false })).overall ≤
      (computeQuality (some { g with is_valid := true })).overall := by
    unfold computeQuality
    rw [liveMetrics_some _ (by rw [hef, he]),
      liveMetrics_some _ (by rw [het, he])]
    exact computeQualityLive_is_valid_mono g
  obtain ⟨hc0, hc1⟩ := extract_conf_mem tree prompt
  have hS0 := computeSpecMatch_overall_nonneg (extractTargetSpec tree prompt)
    tree prompt (some g) hc0 hc1
  have hq0 := computeQuality_overall_nonneg
    (some { g with is_valid := false })
  rw [scoreDesign_overall_def, scoreDesign_overall_def, hsmf, hsmt, hgf, hgt]
  exact round2_mono (by nlinarith)

/-- Witness for the amended C1 at a positive-volume measurement object. -/
theorem c1_gate_monotonicity_amended_witness :
    (scoreDesign emptyTree ""
      (some ({ mNoCyl with is_valid := false }))).overall ≤
      (scoreDesign emptyTree ""
        (some ({ mNoCyl with is_valid := true }))).overall :=
  c1_gate_monotonicity_amended emptyTree "" mNoCyl rfl
    (by norm_num [mNoCyl])

theorem geoSym_mZero : geoSymmetryOf mZero = 0.4 := by
  unfold geoSymmetryOf
  dsimp only
  rw [show mZero.symmetry_hint.getD 0.5 = (0.5 : ℝ) from rfl,
    show mZero.compactness.getD 0 = (0 : ℝ) from rfl,
    if_neg (by decide : ¬(0 < ftCount mZero "CYLINDER" +
      ftCount mZero "SPHERE" + ftCount mZero "CONE" + ftCount mZero "TORUS")),
    if_neg (by norm_num : ¬((0.9 : ℝ) < 0.5)),
    if_neg (by norm_num : ¬((0.7 : ℝ) < 0.5)),
    if_neg (by norm_num : ¬((0.5 : ℝ) < 0))]
  norm_num [min_def]

theorem specSym_mZero :
    (specSymmetry (extractTargetSpec emptyTree "") emptyTree
      (some mZero)).1 = 0.82 := by
  unfold specSymmetry
  rw [liveMetrics_some mZero rfl]
  dsimp only
  rw [show (extractTargetSpec emptyTree "").wantsSymmetry = false from rfl]
  simp only [Bool.false_eq_true, if_false]
  rw [geoSym_mZero]
  norm_num

theorem specFeat_mZero :
    (specFeatures (extractTargetSpec emptyTree "") emptyTree
      (some mZero)).1 = 0.5 := by
  unfold specFeatures
  rw [show (extractTargetSpec emptyTree "").targetFeatures =
      ([] : List String) from rfl,
    if_neg (by decide : ¬(0 < ([] : List String).length)),
    liveMetrics_some mZero rfl]
  dsimp only
  rw [show (Max.max mZero.face_count 1 : ℕ) = 1 from rfl, Nat.cast_one,
    Real.logb_one]
  norm_num [min_def, show mZero.face_types.length = 0 from rfl]

theorem specMatch_mZero :
    (computeSpecMatch (extractTargetSpec emptyTree "") emptyTree ""
      (some mZero)).overall = 0.7 := by
  rw [computeSpecMatch_overall_def,
    show (specProportions (extractTargetSpec emptyTree "") emptyTree ""
      (some mZero)).1 = 0.75 from rfl,
    specSym_mZero, specFeat_mZero,
    show specParamBounds (extractTargetSpec emptyTree "") = 0.8 from rfl,
    round2_eq 70 (by norm_num) (by norm_num)]
  norm_num

theorem qManifold_mZero : qManifold mZero = (0.0, [Issue.zeroVolume]) := by
  unfold qManifold
  rw [if_pos (by norm_num [mZero] : mZero.volume ≤ 0)]

theorem qComponentCount_mZero : qComponentCount mZero = (0.8, []) := by
  unfold qComponentCount
  rw [if_neg (by decide : ¬(eulerChar mZero = 2)),
    if_neg (by decide : ¬(2 < eulerChar mZero))]

theorem qSlenderness_mZero : qSlenderness mZero = (1.0, []) := by
  unfold qSlenderness
  dsimp only
  rw [show jsOrR mZero.aspect_ratio 1.0 = (1.0 : ℝ) from rfl,
    if_neg (by norm_num : ¬((100 : ℝ) < 1.0)),
    if_neg (by norm_num : ¬((50 : ℝ) < 1.0)),
    if_neg (by norm_num : ¬((20 : ℝ) < 1.0)),
    if_neg (by norm_num [mZero] :
      ¬(mZero.compactness.getD 0 < 0.01 ∧ 0 < mZero.volume))]

theorem qComplexityBudget_mZero : qComplexityBudget mZero = (1.0, []) := by
  unfold qComplexityBudget
  rw [if_neg (by decide : ¬(500 < mZero.face_count)),
    if_neg (by decide : ¬(200 < mZero.face_count)),
    if_neg (by norm_num [mZero] :
      ¬(mZero.face_count < 4 ∧ 0 < mZero.volume))]

theorem qual_mZero_true : (computeQuality (some mZero)).overall = 0.72 := by
  unfold computeQuality
  rw [liveMetrics_some mZero rfl]
  unfold computeQualityLive
  dsimp only
  rw [show qValidity mZero = ((1.0 : ℝ), ([] : List Issue)) from rfl,
    qManifold_mZero, qComponentCount_mZero, qSlenderness_mZero,
    qComplexityBudget_mZero]
  dsimp only
  rw [round2_eq 72 (by norm_num) (by norm_num)]
  norm_num

theorem qual_mZero_false :
    (computeQuality (some ({ mZero with is_valid := false }))).overall =
      0.42 := by
  unfold computeQuality
  rw [liveMetrics_some _ rfl]
  unfold computeQualityLive
  dsimp only
  obtain ⟨hm, hc, hs, hb⟩ := qAxes_is_valid_invariant mZero false
  rw [show qValidity ({ mZero with is_valid := false }) =
      ((0.0 : ℝ), [Issue.brepCheckFailed]) from rfl,
    hm, hc, hs, hb, qManifold_mZero, qComponentCount_mZero,
    qSlenderness_mZero, qComplexityBudget_mZero]
  dsimp only
  rw [round2_eq 42 (by norm_num) (by norm_num)]
  norm_num

theorem gate_mZero_true : qualityGate (some mZero) = 0.3 := by
  unfold qualityGate
  rw [liveMetrics_some mZero rfl]
  dsimp only
  rw [if_neg (by simp [mZero] : ¬(mZero.is_valid = false)),
    if_pos (by norm_num [mZero] : mZero.volume ≤ 0)]

/-- C1 counterexample: measurements differing only in `is_valid`, with zero
volume: the valid variant is gated at 0.3 and scores 0.21, the invalid one is
gated at 0.4 and scores 0.25 — `is_valid = false` scores strictly higher. -/
theorem c1_gate_monotonicity_counterexample :
    (scoreDesign emptyTree ""
      (some ({ mZero with is_valid := true }))).overall = 0.21 ∧
    (scoreDesign emptyTree ""
      (some ({ mZero with is_valid := false }))).overall = 0.25 ∧
    ¬((scoreDesign emptyTree ""
        (some ({ mZero with is_valid := false }))).overall ≤
      (scoreDesign emptyTree ""
        (some ({ mZero with is_valid := true }))).overall) := by
  have ht : (scoreDesign emptyTree ""
      (some ({ mZero with is_valid := true }))).overall = 0.21 := by
    rw [show ({ mZero with is_valid := true } : GeometryMetrics) = mZero
        from rfl,
      scoreDesign_overall_def, specMatch_mZero, qual_mZero_true,
      gate_mZero_true, round2_eq 21 (by norm_num) (by norm_num)]
    norm_num
  have hf : (scoreDesign emptyTree ""
      (some ({ mZero with is_valid := false }))).overall = 0.25 := by
    rw [scoreDesign_overall_def,
      computeSpecMatch_is_valid_invariant _ emptyTree "" mZero false rfl,
      specMatch_mZero, qual_mZero_false, qualityGate_invalid _ rfl rfl,
      round2_eq 25 (by norm_num) (by norm_num)]
    norm_num
  exact ⟨ht, hf, by rw [ht, hf]; norm_num⟩

/-- C5: for every design graph, prompt, and optional measurements, the
`ScoreResult` returned by `scoreDesign` has `overall` and each of the four
sub-scores (`proportion`, `symmetry`, `featureCount`, `parameterRange`) in the
closed interval `[0, 1]`. -/
theorem c5_output_range (tree : DesignTree) (prompt : String)
    (m : Option GeometryMetrics) :
    (0 ≤ (scoreDesign tree prompt m).overall ∧
      (scoreDesign tree prompt m).overall ≤ 1) ∧
    (0 ≤ (scoreDesign tree prompt m).proportion ∧
      (scoreDesign tree prompt m).proportion ≤ 1) ∧
    (0 ≤ (scoreDesign tree prompt m).symmetry ∧
      (scoreDesign tree prompt m).symmetry ≤ 1) ∧
    (0 ≤ (scoreDesign tree prompt m).featureCount ∧
      (scoreDesign tree prompt m).featureCount ≤ 1) ∧
    (0 ≤ (scoreDesign tree prompt m).parameterRange ∧
      (scoreDesign tree prompt m).parameterRange ≤ 1) := by
  obtain ⟨hc0, hc1⟩ := extract_conf_mem tree prompt
  obtain ⟨hp, hsy, hft, hpr⟩ := scoreDesign_fields_def tree prompt m
  have hsm0 := computeSpecMatch_overall_nonneg _ tree prompt m hc0 hc1
  have hsm1 := computeSpecMatch_overall_le_one _ tree prompt m hc0 hc1
  have hq0 := computeQuality_overall_nonneg m
  have hq1 := computeQuality_overall_le_one m
  have hg := qualityGate_mem m
  refine ⟨⟨?_, ?_⟩, ⟨?_, ?_⟩, ⟨?_, ?_⟩, ⟨?_, ?_⟩, ⟨?_, ?_⟩⟩
  · rw [scoreDesign_overall_def]
    exact round2_nonneg (mul_nonneg hg.1 (by nlinarith))
  · rw [scoreDesign_overall_def]
    exact round2_le_one (mul_le_one₀ hg.2 (by nlinarith) (by nlinarith))
  · rw [hp, computeSpecMatch_proportions_def]
    exact round2_nonneg (specProportions_nonneg _ tree prompt m)
  · rw [hp, computeSpecMatch_proportions_def]
    exact round2_le_one (specProportions_le_one _ tree prompt m)
  · rw [hsy, computeSpecMatch_symmetry_def]
    exact round2_nonneg (specSymmetry_nonneg _ tree m hc0 hc1)
  · rw [hsy, computeSpecMatch_symmetry_def]
    exact round2_le_one (specSymmetry_le_one _ tree m hc0 hc1)
  · rw [hft, computeSpecMatch_features_def]
    exact round2_nonneg (specFeatures_nonneg _ tree m)
  · rw [hft, computeSpecMatch_features_def]
    exact round2_le_one (specFeatures_le_one _ tree m)
  · rw [hpr]
    exact round2_nonneg (computeQuality_overall_nonneg m)
  · rw [hpr]
    exact round2_le_one (computeQuality_overall_le_one m)

end Paragraph
